import Mathlib

/-
Shallow embedding of the website_builder generation pipeline
(backend/app/api/endpoints.py and backend/app/services/llm_service.py).

Python strings are modelled as `List Char`; `str.strip`, `str.lower`,
substring containment (`in`), slicing and `str.split` are translated
faithfully below.  Calls to the external scraper, the generative-model
provider and object storage are modelled as explicit outcome values fed
to the flow functions; each flow also returns the list of externally
visible events (model calls, file/storage writes) it performed, in order.
-/

/-- Python whitespace as used by `str.strip` (the ASCII whitespace chars). -/
def pySpace (c : Char) : Bool :=
  c = ' ' || c = '\t' || c = '\n' || c = '\r' || c = '\x0b' || c = '\x0c'

/-- Python `str.lstrip()`. -/
def pyLstrip (l : List Char) : List Char := l.dropWhile pySpace

/-- Python `str.rstrip()`. -/
def pyRstrip (l : List Char) : List Char := (l.reverse.dropWhile pySpace).reverse

/-- Python `str.strip()`. -/
def pyStrip (l : List Char) : List Char := pyRstrip (pyLstrip l)

/-- Python `str.lower()` (ASCII letters; the markers involved are ASCII). -/
def pyLower (l : List Char) : List Char := l.map Char.toLower

/-- Python substring containment: `containsSub pat l` is `pat in l`. -/
def containsSub (pat : List Char) : List Char → Bool
  | [] => pat.isEmpty
  | c :: rest => pat.isPrefixOf (c :: rest) || containsSub pat rest

/-- The literal marker "failed" (endpoints.py lines 40 and 140). -/
def failedMarker : List Char := "failed".data

/-- The literal marker "empty" (endpoints.py line 40, clone flow). -/
def emptyMarker : List Char := "empty".data

/-- The client-side crash signature (endpoints.py line 142). -/
def crashMarker : List Char :=
  "Application error: a client-side exception has occurred".data

/-- The empty-SPA-shell signature (endpoints.py line 150). -/
def rootDivMarker : List Char := "<div id=\"root\"></div>".data

/-- Errors surfaced by the pipeline flows (HTTPException reasons). -/
inductive FlowErr where
  | scrapeFailed
  | clientSideCrash
  | emptyShell
  | resumeUnusable
  | parseServiceError
  | generationError
  | blankGeneration
deriving DecidableEq

/-- First validation check of the build-portfolio flow (endpoints.py line 140):
`not simplified_html or "failed" in simplified_html.lower()`. -/
def buildFirstCheck (html : List Char) : Bool :=
  html.isEmpty || containsSub failedMarker (pyLower html)

/-- Second check of the build-portfolio flow (endpoints.py line 142):
the crash marker occurs in `simplified_html`. -/
def crashCheck (html : List Char) : Bool := containsSub crashMarker html

/-- Third check of the build-portfolio flow (endpoints.py line 150):
`simplified_html and len(simplified_html) < 100 and '<div id="root"></div>' in simplified_html`. -/
def shellCheck (html : List Char) : Bool :=
  !html.isEmpty && decide (html.length < 100) && containsSub rootDivMarker html

/-- The validation gate of the build-portfolio flow, checks in source order
(endpoints.py lines 140-155), short-circuiting. -/
def validateBuild (html : List Char) : Option FlowErr :=
  if buildFirstCheck html then some .scrapeFailed
  else if crashCheck html then some .clientSideCrash
  else if shellCheck html then some .emptyShell
  else none

/-- The validation check of the clone flow (endpoints.py line 40):
`not simplified_html or "failed" in ...lower() or "empty" in ...lower()`. -/
def cloneCheck (html : List Char) : Bool :=
  html.isEmpty || containsSub failedMarker (pyLower html)
    || containsSub emptyMarker (pyLower html)

/-- The leading fence marker stripped by the HTML generation tasks. -/
def htmlFence : List Char := "```html".data

/-- The trailing fence marker. -/
def closeFence : List Char := "```".data

/-- Post-processing of LLM output in `generate_html_with_llm` (llm_service.py
lines 98-104) and `generate_portfolio_from_context` (lines 292-296):
```
if generated_html.strip().startswith("```html"): generated_html = generated_html.strip()[7:]
if generated_html.strip().endswith("```"): generated_html = generated_html.strip()[:-3]
return generated_html.strip()
``` -/
def stripOpenFence (g : List Char) : List Char :=
  if htmlFence.isPrefixOf (pyStrip g) then (pyStrip g).drop 7 else g

def stripCloseFence (g : List Char) : List Char :=
  if closeFence.isSuffixOf (pyStrip g) then (pyStrip g).take ((pyStrip g).length - 3)
  else g

def stripFences (raw : List Char) : List Char :=
  pyStrip (stripCloseFence (stripOpenFence raw))

example : stripFences "```html\n<p>hi</p>\n```".data = "<p>hi</p>".data := by decide
example : stripFences "  hello  ".data = "hello".data := by decide
example : validateBuild "Your cart is empty today".data = none := by decide
example : validateBuild [] = some .scrapeFailed := by decide
example : validateBuild "it FAILED here".data = some .scrapeFailed := by decide
example : validateBuild rootDivMarker = some .emptyShell := by decide
example : cloneCheck "Your cart is empty today".data = true := by decide

/-- The `name` field of the parsed resume JSON: the key can be absent, be
JSON `null`, or hold a string.  Python `resume_json.get("name")` is falsy in
the first two cases and for the empty string. -/
inductive NameField where
  | absent
  | null
  | str (s : List Char)
deriving DecidableEq

/-- The parsed resume profile, restricted to the fields the orchestrator
inspects (endpoints.py line 159): `name` and the `experience` array. -/
structure ResumeProfile where
  name : NameField
  experience : List (List Char)
deriving DecidableEq

/-- Python truthiness of `resume_json.get("name")`. -/
def truthyName : NameField → Bool
  | .absent => false
  | .null => false
  | .str s => !s.isEmpty

/-- The resume gate (endpoints.py line 159):
`not resume_json.get("name") and not resume_json.get("experience")`. -/
def resumeGateRejects (p : ResumeProfile) : Bool :=
  !truthyName p.name && p.experience.isEmpty

/-- Externally visible events of the build-portfolio flow, in order:
the resume-parse model call, the portfolio-build model call, and the
object-storage write (with the written content). -/
inductive BuildEv where
  | parseResume
  | generatePortfolio
  | s3Write (content : List Char)
deriving DecidableEq

/-- The build-portfolio flow (endpoints.py lines 136-190).  The results of
the two model calls are supplied as oracle values: `parseOutcome` is the
profile returned by `parse_resume_to_json` (`none` when that call raised),
and `genOutcome` the string returned by `generate_portfolio_from_context`
(`none` when it raised).  Returns the flow result together with the list of
events that occurred before the flow finished or aborted. -/
def buildFlow (html : List Char) (parseOutcome : Option ResumeProfile)
    (genOutcome : Option (List Char)) :
    Except FlowErr (List Char) × List BuildEv :=
  match validateBuild html with
  | some e => (.error e, [])
  | none =>
    match parseOutcome with
    | none => (.error .parseServiceError, [.parseResume])
    | some profile =>
      if resumeGateRejects profile then
        (.error .resumeUnusable, [.parseResume])
      else
        match genOutcome with
        | none => (.error .generationError, [.parseResume, .generatePortfolio])
        | some out =>
          if (pyStrip out).isEmpty then
            (.error .blankGeneration, [.parseResume, .generatePortfolio])
          else
            (.ok out, [.parseResume, .generatePortfolio, .s3Write out])

/-- Python `url.split('//')`: split on non-overlapping occurrences of `//`,
scanning left to right. -/
def splitDS : List Char → List (List Char)
  | [] => [[]]
  | [c] => [[c]]
  | c₁ :: c₂ :: rest =>
    if c₁ = '/' && c₂ = '/' then [] :: splitDS rest
    else
      match splitDS (c₂ :: rest) with
      | [] => [[c₁]]
      | s :: ss => (c₁ :: s) :: ss

/-- Python single-character `str.replace(old, new)`. -/
def replaceChar (old new : Char) : List Char → List Char
  | [] => []
  | c :: rest => (if c = old then new else c) :: replaceChar old new rest

/-- Host sanitization (endpoints.py line 61): `.replace('.', '_').replace(':', '_')`. -/
def sanitizeHost (host : List Char) : List Char :=
  replaceChar ':' '_' (replaceChar '.' '_' host)

/-- Host extraction (endpoints.py line 61):
`url.split('//')[-1].split('/')[0]`. -/
def hostOf (url : List Char) : List Char :=
  ((splitDS url).getLastD []).takeWhile (· != '/')

/-- The clone filename (endpoints.py line 62):
`f"clone_{sanitized_url_part}_{timestamp}.html"`. -/
def cloneFilename (url ts : List Char) : List Char :=
  "clone_".data ++ sanitizeHost (hostOf url) ++ "_".data ++ ts ++ ".html".data

/-- The suffix of `l` after the last occurrence of `//` in `l`, or `none`
when `//` does not occur.  This follows the words of the specification
("the portion of the request URL after the last '//'"); it is compared with
the source-derived `hostOf` above. -/
def afterLastDS : List Char → Option (List Char)
  | [] => none
  | [_] => none
  | c₁ :: c₂ :: rest =>
    match afterLastDS (c₂ :: rest) with
    | some s => some s
    | none => if c₁ = '/' && c₂ = '/' then some rest else none

/-- Host extraction as worded by the claim: the portion of the URL after the
last `//` and before the first subsequent `/`. -/
def specHostOf (url : List Char) : List Char :=
  ((afterLastDS url).getD url).takeWhile (· != '/')

/-- The clone filename as worded by the claim, built from `specHostOf`. -/
def specCloneFilename (url ts : List Char) : List Char :=
  "clone_".data ++ sanitizeHost (specHostOf url) ++ "_".data ++ ts ++ ".html".data

/-- Externally visible events of the clone flow: the clone model call and
the local file write (with the written content). -/
inductive CloneEv where
  | generateClone
  | fileWrite (content : List Char)
deriving DecidableEq

/-- Response of the clone flow (endpoints.py lines 77-81). -/
structure CloneResponse where
  filePath : List Char
  viewLink : List Char
deriving DecidableEq

/-- Python `os.path.join(dir, filename)` for a non-absolute second argument. -/
def joinPath (dir fn : List Char) : List Char :=
  if dir.isEmpty then fn
  else if dir.getLast? = some '/' then dir ++ fn else dir ++ '/' :: fn

/-- The clone-and-save flow (endpoints.py lines 37-81) with LLM cloning
enabled (`ENABLE_LLM_CLONING = True` in the source).  `dir` is
`config.GENERATED_HTML_DIR_PATH`, `staticPfx` is
`config.STATIC_CLONES_PATH_PREFIX`, `baseUrl` the request base URL, and
`genOutcome` the string returned by `generate_html_with_llm` (`none` when it
raised).  Returns the result and the events that occurred. -/
def cloneFlow (dir staticPfx baseUrl url html : List Char)
    (genOutcome : Option (List Char)) (ts : List Char) :
    Except FlowErr CloneResponse × List CloneEv :=
  if cloneCheck html then (.error .scrapeFailed, [])
  else
    match genOutcome with
    | none => (.error .generationError, [.generateClone])
    | some g =>
      let filename := cloneFilename url ts
      (.ok ⟨joinPath dir filename, baseUrl ++ staticPfx ++ '/' :: filename⟩,
        [.generateClone, .fileWrite g])

example : hostOf "https://www.uber.com/in/en/".data = "www_uber".data → False := by decide
example : hostOf "https://www.uber.com/in/en/".data = "www.uber.com".data := by decide
example : sanitizeHost (hostOf "https://www.uber.com/in/en/".data) = "www_uber_com".data := by decide
example : hostOf "http://localhost:8000/x".data = "localhost:8000".data := by decide
example : sanitizeHost (hostOf "http://localhost:8000/x".data) = "localhost_8000".data := by decide
example : hostOf "http:///x".data = [] := by decide
example : specHostOf "http:///x".data = "x".data := by decide
example : hostOf "example.com/path".data = "example.com".data := by decide

/-- One provider attempt, as classified by the source: a usable response
(carrying the concatenated candidate text), a response without usable
candidates/content, a `google.api_core.exceptions.ResourceExhausted`, or
any other exception. -/
inductive LlmOutcome where
  | ok (raw : List Char)
  | invalidResponse
  | resourceExhausted
  | otherError
deriving DecidableEq

/-- Terminal errors of the generation client. -/
inductive GenErr where
  | resourceExhausted
  | invalidResponse
  | serverError
  | scriptEnded
deriving DecidableEq

/-- HTTP status the source attaches to each terminal error
(llm_service.py lines 105, 115, 118). -/
def httpStatus : GenErr → Nat
  | .resourceExhausted => 429
  | _ => 500

deriving instance DecidableEq for Except

/-- Observable summary of one generation-client run: the result, the list of
backoff sleeps performed (in seconds, in order), and the number of provider
attempts made. -/
structure GenRun where
  result : Except GenErr (List Char)
  sleeps : List Nat
  attempts : Nat
deriving DecidableEq

/-- `max_retries = 2` (llm_service.py lines 60 and 252). -/
def maxRetries : Nat := 2

/-- `base_delay = 5` (llm_service.py lines 60 and 252). -/
def baseDelay : Nat := 5

/-- The retry loop shared by `generate_html_with_llm` (llm_service.py lines
63-120) and `generate_portfolio_from_context` (lines 255-311):
`for attempt in range(max_retries + 1)`, sleeping `base_delay * 2 ** attempt`
after a ResourceExhausted attempt while `attempt < max_retries`, raising 429
when retries are exhausted; a usable response returns the post-processed
text; a response without usable content raises an HTTPException which the
generic handler re-raises (terminal, status 500); any other exception is
terminal with status 500.  The provider's behaviour on each attempt is given
by `script`, consumed one outcome per attempt. -/
def llmRetryLoop (post : List Char → List Char) :
    Nat → List LlmOutcome → GenRun
  | _, [] => ⟨.error .scriptEnded, [], 0⟩
  | attempt, o :: rest =>
    match o with
    | .ok raw => ⟨.ok (post raw), [], 1⟩
    | .invalidResponse => ⟨.error .invalidResponse, [], 1⟩
    | .otherError => ⟨.error .serverError, [], 1⟩
    | .resourceExhausted =>
      if attempt < maxRetries then
        let r := llmRetryLoop post (attempt + 1) rest
        ⟨r.result, baseDelay * 2 ^ attempt :: r.sleeps, r.attempts + 1⟩
      else ⟨.error .resourceExhausted, [], 1⟩

/-- `generate_html_with_llm` (the CLONE task), as a function of the provider
outcome script. -/
def generateHtmlRun (script : List LlmOutcome) : GenRun :=
  llmRetryLoop stripFences 0 script

/-- `generate_portfolio_from_context` (the BUILD_PORTFOLIO task), as a
function of the provider outcome script; its retry loop and fence stripping
are identical to the CLONE task's. -/
def generatePortfolioRun (script : List LlmOutcome) : GenRun :=
  llmRetryLoop stripFences 0 script

/-- JSON values, as produced by `json.loads` (numbers kept as lexemes). -/
inductive Json where
  | null
  | bool (b : Bool)
  | num (lexeme : List Char)
  | str (s : List Char)
  | arr (elems : List Json)
  | obj (members : List (List Char × Json))

/-- JSON insignificant whitespace. -/
def jsonWs (c : Char) : Bool := c = ' ' || c = '\t' || c = '\n' || c = '\r'

/-- Skip JSON whitespace. -/
def skipWs (l : List Char) : List Char := l.dropWhile jsonWs

/-- Hexadecimal digit test. -/
def isHexDigit (c : Char) : Bool :=
  c.isDigit || decide ('a' ≤ c ∧ c ≤ 'f') || decide ('A' ≤ c ∧ c ≤ 'F')

/-- Hexadecimal digit value. -/
def hexVal (c : Char) : Nat :=
  if c.isDigit then c.toNat - 48
  else if decide ('a' ≤ c ∧ c ≤ 'f') then c.toNat - 87
  else c.toNat - 55

/-- Single-character JSON string escapes. -/
def escChar : Char → Option Char
  | '\"' => some '\"'
  | '\\' => some '\\'
  | '/' => some '/'
  | 'b' => some '\x08'
  | 'f' => some '\x0c'
  | 'n' => some '\n'
  | 'r' => some '\r'
  | 't' => some '\t'
  | _ => none

/-- Modelled from the spec: the JSON string grammar accepted by the external
`json.loads` (Python stdlib, not part of this repository).  Parses a JSON
string body after the opening quote, returning the decoded content and the
remainder after the closing quote.  `\uXXXX` escapes are decoded to the code
point (surrogate pairs are not combined); unescaped control characters are
rejected. -/
def parseStrBody : List Char → Option (List Char × List Char)
  | [] => none
  | '\"' :: rest => some ([], rest)
  | '\\' :: 'u' :: a :: b :: c :: d :: rest =>
    if isHexDigit a && isHexDigit b && isHexDigit c && isHexDigit d then
      match parseStrBody rest with
      | some (s, r) =>
        some (Char.ofNat (((hexVal a * 16 + hexVal b) * 16 + hexVal c) * 16 + hexVal d) :: s, r)
      | none => none
    else none
  | '\\' :: e :: rest =>
    match escChar e with
    | some ec =>
      match parseStrBody rest with
      | some (s, r) => some (ec :: s, r)
      | none => none
    | none => none
  | c :: rest =>
    if decide (c.toNat < 32) then none
    else
      match parseStrBody rest with
      | some (s, r) => some (c :: s, r)
      | none => none

/-- Modelled from the spec: the JSON number grammar of `json.loads`
(`-? int frac? exp?`); returns the lexeme and the remainder. -/
def parseNum (l : List Char) : Option (Json × List Char) :=
  let (sign, l₁) := match l with
    | '-' :: rest => (['-'], rest)
    | _ => (([] : List Char), l)
  let intPart : Option (List Char × List Char) :=
    match l₁ with
    | '0' :: rest => some (['0'], rest)
    | c :: rest =>
      if c.isDigit then
        some ((c :: rest).takeWhile Char.isDigit, (c :: rest).dropWhile Char.isDigit)
      else none
    | [] => none
  match intPart with
  | none => none
  | some (ip, r₁) =>
    let fracPart : Option (List Char × List Char) :=
      match r₁ with
      | '.' :: r₂ =>
        let ds := r₂.takeWhile Char.isDigit
        if ds.isEmpty then none else some ('.' :: ds, r₂.dropWhile Char.isDigit)
      | _ => some ([], r₁)
    match fracPart with
    | none => none
    | some (fp, r₂) =>
      let expPart : Option (List Char × List Char) :=
        match r₂ with
        | e :: r₃ =>
          if e = 'e' || e = 'E' then
            let (es, r₄) := match r₃ with
              | '+' :: r₄ => ([e, '+'], r₄)
              | '-' :: r₄ => ([e, '-'], r₄)
              | _ => ([e], r₃)
            let ds := r₄.takeWhile Char.isDigit
            if ds.isEmpty then none else some (es ++ ds, r₄.dropWhile Char.isDigit)
          else some ([], r₂)
        | [] => some ([], r₂)
      match expPart with
      | none => none
      | some (ep, r₃) => some (.num (sign ++ ip ++ fp ++ ep), r₃)

mutual

/-- Modelled from the spec: the JSON value grammar of the external
`json.loads`.  Fuel-indexed; the fuel only bounds nesting and is chosen
large enough at the entry point. -/
def parseVal : Nat → List Char → Option (Json × List Char)
  | 0, _ => none
  | fuel + 1, l =>
    match skipWs l with
    | [] => none
    | 'n' :: rest =>
      if "ull".data.isPrefixOf rest then some (.null, rest.drop 3) else none
    | 't' :: rest =>
      if "rue".data.isPrefixOf rest then some (.bool true, rest.drop 3) else none
    | 'f' :: rest =>
      if "alse".data.isPrefixOf rest then some (.bool false, rest.drop 4) else none
    | '\"' :: rest =>
      match parseStrBody rest with
      | some (s, r) => some (.str s, r)
      | none => none
    | '\x7b' :: rest => parseObjBody fuel rest
    | '[' :: rest => parseArrBody fuel rest
    | c :: rest =>
      if c = '-' || c.isDigit then parseNum (c :: rest) else none

/-- Array body after the opening bracket. -/
def parseArrBody : Nat → List Char → Option (Json × List Char)
  | 0, _ => none
  | fuel + 1, l =>
    match skipWs l with
    | ']' :: rest => some (.arr [], rest)
    | _ =>
      match parseVal fuel l with
      | some (v, r) => parseArrTail fuel [v] r
      | none => none

/-- Array continuation: `, value` repeated until `]`. -/
def parseArrTail : Nat → List Json → List Char → Option (Json × List Char)
  | 0, _, _ => none
  | fuel + 1, acc, l =>
    match skipWs l with
    | ']' :: rest => some (.arr acc.reverse, rest)
    | ',' :: rest =>
      match parseVal fuel rest with
      | some (v, r) => parseArrTail fuel (v :: acc) r
      | none => none
    | _ => none

/-- One object member: `"key" : value`. -/
def parseMember : Nat → List Char → Option ((List Char × Json) × List Char)
  | 0, _ => none
  | fuel + 1, l =>
    match skipWs l with
    | '\"' :: rest =>
      match parseStrBody rest with
      | some (k, r) =>
        match skipWs r with
        | ':' :: r₂ =>
          match parseVal fuel r₂ with
          | some (v, r₃) => some ((k, v), r₃)
          | none => none
        | _ => none
      | none => none
    | _ => none

/-- Object body after the opening brace. -/
def parseObjBody : Nat → List Char → Option (Json × List Char)
  | 0, _ => none
  | fuel + 1, l =>
    match skipWs l with
    | '\x7d' :: rest => some (.obj [], rest)
    | _ =>
      match parseMember fuel l with
      | some (kv, r) => parseObjTail fuel [kv] r
      | none => none

/-- Object continuation: `, member` repeated until `}`. -/
def parseObjTail : Nat → List (List Char × Json) → List Char → Option (Json × List Char)
  | 0, _, _ => none
  | fuel + 1, acc, l =>
    match skipWs l with
    | '\x7d' :: rest => some (.obj acc.reverse, rest)
    | ',' :: rest =>
      match parseMember fuel rest with
      | some (kv, r) => parseObjTail fuel (kv :: acc) r
      | none => none
    | _ => none

end

/-- Modelled from the spec: the external `json.loads` — parse one JSON
document and require only whitespace to follow; `none` models the
`json.JSONDecodeError` raised on invalid input. -/
def jsonLoads (l : List Char) : Option Json :=
  match parseVal (2 * l.length + 2) l with
  | some (v, rest) => if (skipWs rest).isEmpty then some v else none
  | none => none

/-- Observable summary of one `parse_resume_to_json` run. -/
structure ParseRun where
  result : Except GenErr Json
  sleeps : List Nat
  attempts : Nat

/-- `parse_resume_to_json` (llm_service.py lines 124-210) as a function of
the provider outcome script: a single attempt inside one `try`; the raw
response text is passed directly to `json.loads`; every exception —
including `ResourceExhausted` and JSON decode errors — is caught by the one
generic handler and surfaced as an HTTP 500 server error.  There is no
retry loop and no sleep. -/
def parseResumeRun (script : List LlmOutcome) : ParseRun :=
  match script with
  | [] => ⟨.error .scriptEnded, [], 0⟩
  | o :: _ =>
    match o with
    | .ok raw =>
      match jsonLoads raw with
      | some j => ⟨.ok j, [], 1⟩
      | none => ⟨.error .serverError, [], 1⟩
    | _ => ⟨.error .serverError, [], 1⟩

/-! ### Helper lemmas about the Python string primitives -/

theorem dropWhile_idem (p : α → Bool) (l : List α) :
    (l.dropWhile p).dropWhile p = l.dropWhile p := by
  induction l with
  | nil => rfl
  | cons a t ih =>
    by_cases h : p a
    · simpa [List.dropWhile_cons_of_pos h] using ih
    · simp [List.dropWhile_cons_of_neg h, h]

theorem dropWhile_head_false (p : α → Bool) (l : List α) (a : α) (t : List α)
    (h : l.dropWhile p = a :: t) : p a = false := by
  induction l with
  | nil => simp at h
  | cons b u ih =>
    by_cases hb : p b
    · exact ih (by simpa [List.dropWhile_cons_of_pos hb] using h)
    · rw [List.dropWhile_cons_of_neg hb] at h
      cases h
      exact eq_false_of_ne_true hb

theorem dropWhile_fixed_cons (p : α → Bool) (a : α) (t : List α)
    (h : p a = false) : (a :: t).dropWhile p = a :: t :=
  List.dropWhile_cons_of_neg (by simp [h])

theorem dropWhile_append_fixed (p : α → Bool) (l₁ l₂ : List α)
    (h : l₂.dropWhile p = l₂) :
    (l₁ ++ l₂).dropWhile p = l₁.dropWhile p ++ l₂ := by
  rw [List.dropWhile_append]
  by_cases he : (l₁.dropWhile p).isEmpty
  · rw [if_pos he, h]
    rw [List.isEmpty_eq_true] at he
    rw [he, List.nil_append]
  · rw [if_neg he]

theorem dropWhile_append_fixed_ne (p : α → Bool) (l₁ l₂ : List α)
    (h : l₁.dropWhile p = l₁) (hne : l₁ ≠ []) :
    (l₁ ++ l₂).dropWhile p = l₁ ++ l₂ := by
  rw [List.dropWhile_append, h]
  simp [hne]

theorem pyRstrip_prefix (l : List Char) : pyRstrip l <+: l := by
  have h := List.dropWhile_suffix (l := l.reverse) pySpace
  have h2 : (l.reverse.dropWhile pySpace).reverse <+: l.reverse.reverse :=
    List.reverse_prefix.mpr h
  simpa [pyRstrip] using h2

theorem pyLstrip_fixed_of_lstrip (l : List Char) (h : pyLstrip l = l) :
    pyLstrip (pyRstrip l) = pyRstrip l := by
  rcases hr : pyRstrip l with _ | ⟨a, t⟩
  · rfl
  · have hpre : pyRstrip l <+: l := pyRstrip_prefix l
    rw [hr] at hpre
    obtain ⟨u, hu⟩ := hpre
    have ha : pySpace a = false := by
      apply dropWhile_head_false pySpace l a (t ++ u)
      rw [← hu] at h ⊢
      simpa [pyLstrip] using congrArg (fun x => x) h
    exact dropWhile_fixed_cons pySpace a t ha

theorem pyRstrip_idem (l : List Char) : pyRstrip (pyRstrip l) = pyRstrip l := by
  simp [pyRstrip, dropWhile_idem]

theorem pyStrip_idem (l : List Char) : pyStrip (pyStrip l) = pyStrip l := by
  unfold pyStrip
  rw [pyLstrip_fixed_of_lstrip (pyLstrip l) (dropWhile_idem pySpace l),
    pyRstrip_idem]

theorem pyStrip_lstrip (l : List Char) : pyStrip (pyLstrip l) = pyStrip l := by
  unfold pyStrip
  rw [show pyLstrip (pyLstrip l) = pyLstrip l from dropWhile_idem pySpace l]

theorem pyLstrip_htmlFence_append (x : List Char) :
    pyLstrip (htmlFence ++ x) = htmlFence ++ x :=
  dropWhile_append_fixed_ne pySpace htmlFence x (by decide) (by decide)

theorem pyRstrip_append_closeFence (y : List Char) :
    pyRstrip (y ++ closeFence) = y ++ closeFence := by
  unfold pyRstrip
  rw [List.reverse_append]
  rw [dropWhile_append_fixed_ne pySpace closeFence.reverse y.reverse
    (by decide) (by decide)]
  rw [← List.reverse_append, List.reverse_reverse]

theorem pyStrip_wrap (inner : List Char) :
    pyStrip (htmlFence ++ inner ++ closeFence) =
      htmlFence ++ inner ++ closeFence := by
  unfold pyStrip
  rw [List.append_assoc, pyLstrip_htmlFence_append, ← List.append_assoc,
    pyRstrip_append_closeFence]

theorem pyStrip_append_closeFence (inner : List Char) :
    pyStrip (inner ++ closeFence) = pyLstrip inner ++ closeFence := by
  unfold pyStrip
  rw [show pyLstrip (inner ++ closeFence) = pyLstrip inner ++ closeFence from
    dropWhile_append_fixed pySpace inner closeFence (by decide)]
  exact pyRstrip_append_closeFence (pyLstrip inner)

example : generateHtmlRun [.resourceExhausted, .resourceExhausted, .resourceExhausted] =
    ⟨.error .resourceExhausted, [5, 10], 3⟩ := by rfl
example : generateHtmlRun [.resourceExhausted, .ok "```html x ```".data] =
    ⟨.ok "x".data, [5], 2⟩ := by rfl
example : generateHtmlRun [.otherError, .ok "y".data] = ⟨.error .serverError, [], 1⟩ := by rfl
example : jsonLoads "\x7b\"name\": \"John\"\x7d".data =
    some (.obj [("name".data, .str "John".data)]) := by rfl
example : jsonLoads "```json\n\x7b\"name\": \"John\"\x7d\n```".data = none := by rfl
example : jsonLoads "  [1, 2.5e3, null, true, \"a\\n\"]  ".data =
    some (.arr [.num ['1'], .num "2.5e3".data, .null, .bool true, .str ['a', '\n']]) := by rfl
example : jsonLoads "[1, 2]x".data = none := by rfl
example : jsonLoads "01".data = none := by rfl

/-! ### Helper lemmas about `splitDS` and `afterLastDS` -/

theorem containsSub_cons_of (pat : List Char) (c : Char) (t : List Char)
    (h : containsSub pat t = true) : containsSub pat (c :: t) = true := by
  simp [containsSub, h]

theorem containsSub_tail_false (pat : List Char) (c : Char) (t : List Char)
    (h : containsSub pat (c :: t) = false) : containsSub pat t = false := by
  cases h2 : containsSub pat t with
  | false => rfl
  | true =>
    rw [containsSub_cons_of pat c t h2] at h
    simp at h

theorem splitDS_ne_nil (l : List Char) : splitDS l ≠ [] := by
  rcases l with _ | ⟨c₁, _ | ⟨c₂, rest⟩⟩
  · simp [splitDS]
  · simp [splitDS]
  · simp only [splitDS]
    split
    · simp
    · split <;> simp

theorem afterLastDS_none_split :
    ∀ l : List Char, afterLastDS l = none → splitDS l = [l] := by
  intro l
  induction l with
  | nil => intro _; rfl
  | cons c₁ t ih =>
    rcases t with _ | ⟨c₂, rest⟩
    · intro _; rfl
    · intro h
      have hu : afterLastDS (c₁ :: c₂ :: rest) =
          match afterLastDS (c₂ :: rest) with
          | some s => some s
          | none => if c₁ = '/' && c₂ = '/' then some rest else none := rfl
      cases h2 : afterLastDS (c₂ :: rest) with
      | some s =>
        rw [hu, h2] at h
        simp at h
      | none =>
        rw [hu, h2] at h
        simp only at h
        have hcond : ¬((c₁ = '/' && c₂ = '/') = true) := by
          intro hb
          rw [if_pos hb] at h
          simp at h
        have hs := ih h2
        simp only [splitDS]
        rw [if_neg hcond, hs]

theorem afterLastDS_some_split :
    ∀ l s : List Char, afterLastDS l = some s → 2 ≤ (splitDS l).length := by
  intro l
  induction l with
  | nil => intro s h; simp [afterLastDS] at h
  | cons c₁ t ih =>
    rcases t with _ | ⟨c₂, rest⟩
    · intro s h; simp [afterLastDS] at h
    · intro s h
      have hu : afterLastDS (c₁ :: c₂ :: rest) =
          match afterLastDS (c₂ :: rest) with
          | some s => some s
          | none => if c₁ = '/' && c₂ = '/' then some rest else none := rfl
      cases h2 : afterLastDS (c₂ :: rest) with
      | some s' =>
        have hlen := ih s' h2
        simp only [splitDS]
        split
        · have := splitDS_ne_nil rest
          cases h3 : splitDS rest with
          | nil => exact absurd h3 this
          | cons a as => simp
        · rcases h3 : splitDS (c₂ :: rest) with _ | ⟨s₀, ss⟩
          · exact absurd h3 (splitDS_ne_nil _)
          · rw [h3] at hlen
            simp at hlen ⊢
            omega
      | none =>
        rw [hu, h2] at h
        simp only at h
        cases hb : (c₁ = '/' && c₂ = '/') with
        | false => rw [if_neg (by simp [hb])] at h; simp at h
        | true =>
          simp only [splitDS]
          rw [if_pos hb]
          cases h3 : splitDS rest with
          | nil => exact absurd h3 (splitDS_ne_nil _)
          | cons a as => simp

theorem splitDS_last_eq_afterLast :
    ∀ l : List Char, containsSub "///".data l = false →
      (splitDS l).getLastD [] = (afterLastDS l).getD l := by
  suffices key : ∀ (n : Nat) (l : List Char), l.length ≤ n →
      containsSub "///".data l = false →
      (splitDS l).getLastD [] = (afterLastDS l).getD l by
    intro l h
    exact key l.length l (Nat.le_refl _) h
  intro n
  induction n with
  | zero =>
    intro l hl _
    have : l = [] := by
      cases l with
      | nil => rfl
      | cons a t => simp at hl
    subst this
    rfl
  | succ n ih =>
    intro l hl htriple
    rcases l with _ | ⟨c₁, _ | ⟨c₂, rest⟩⟩
    · rfl
    · rfl
    · have hu : afterLastDS (c₁ :: c₂ :: rest) =
          match afterLastDS (c₂ :: rest) with
          | some s => some s
          | none => if c₁ = '/' && c₂ = '/' then some rest else none := rfl
      by_cases hc : (c₁ = '/' && c₂ = '/') = true
      · have hc1 : c₁ = '/' := by
          simpa using (Bool.and_eq_true _ _ |>.mp hc).1
        have hc2 : c₂ = '/' := by
          simpa using (Bool.and_eq_true _ _ |>.mp hc).2
        subst hc1; subst hc2
        have hsplit : splitDS ('/' :: '/' :: rest) = [] :: splitDS rest := by
          simp [splitDS]
        rcases rest with _ | ⟨r₁, rest'⟩
        · decide
        · have hr1 : ¬ r₁ = '/' := by
            intro he
            subst he
            have : containsSub "///".data ('/' :: '/' :: '/' :: rest') = true := by
              simp [containsSub, List.isPrefixOf]
            rw [this] at htriple
            simp at htriple
          have hinner : afterLastDS ('/' :: r₁ :: rest') = afterLastDS (r₁ :: rest') := by
            have hu2 : afterLastDS ('/' :: r₁ :: rest') =
                match afterLastDS (r₁ :: rest') with
                | some s => some s
                | none => if '/' = '/' && r₁ = '/' then some rest' else none := rfl
            cases h2 : afterLastDS (r₁ :: rest') with
            | some s => rw [hu2, h2]
            | none =>
              rw [hu2, h2]
              simp only
              rw [if_neg (by simp [hr1])]
          have hlen : (r₁ :: rest').length ≤ n := by
            simp at hl ⊢
            omega
          have htail : containsSub "///".data (r₁ :: rest') = false :=
            containsSub_tail_false _ _ _ (containsSub_tail_false _ _ _ htriple)
          have ihr := ih (r₁ :: rest') hlen htail
          rw [hsplit, List.getLastD_cons]
          cases h2 : afterLastDS (r₁ :: rest') with
          | some s =>
            have houter : afterLastDS ('/' :: '/' :: r₁ :: rest') = some s := by
              rw [hu, hinner, h2]
            rw [houter]
            rw [h2] at ihr
            simpa using ihr
          | none =>
            have houter : afterLastDS ('/' :: '/' :: r₁ :: rest') = some (r₁ :: rest') := by
              rw [hu, hinner, h2]
              simp
            rw [houter]
            rw [h2] at ihr
            simpa using ihr
      · have hlen : (c₂ :: rest).length ≤ n := by
          simp at hl ⊢
          omega
        have htail : containsSub "///".data (c₂ :: rest) = false :=
          containsSub_tail_false _ _ _ htriple
        have ihr := ih (c₂ :: rest) hlen htail
        cases h2 : afterLastDS (c₂ :: rest) with
        | none =>
          have hs := afterLastDS_none_split (c₂ :: rest) h2
          have houter : afterLastDS (c₁ :: c₂ :: rest) = none := by
            rw [hu, h2]
            simp only
            rw [if_neg hc]
          rw [houter]
          simp only [splitDS]
          rw [if_neg hc, hs]
          rfl
        | some s =>
          have houter : afterLastDS (c₁ :: c₂ :: rest) = some s := by
            rw [hu, h2]
          have hlen2 := afterLastDS_some_split (c₂ :: rest) s h2
          rcases h3 : splitDS (c₂ :: rest) with _ | ⟨s₀, _ | ⟨s₁, ss⟩⟩
          · exact absurd h3 (splitDS_ne_nil _)
          · rw [h3] at hlen2; simp at hlen2
          · rw [h3, h2] at ihr
            simp only [List.getLastD_cons] at ihr
            simp only [Option.getD_some] at ihr
            have houtsplit : splitDS (c₁ :: c₂ :: rest) = (c₁ :: s₀) :: s₁ :: ss := by
              simp only [splitDS]
              rw [if_neg hc, h3]
            rw [houtsplit, houter]
            simp only [List.getLastD_cons, Option.getD_some]
            exact ihr

/-! ### Claim C4: fence stripping -/

theorem stripFences_strip_fixed (raw : List Char) :
    pyStrip (stripFences raw) = stripFences raw :=
  pyStrip_idem _

/-- C4 counterexample: the fence-stripping of llm_service.py lines 98-104 is
not idempotent — stripping "```html```html foo```" once yields
"```html foo", stripping again yields "foo" — and an input containing no
```html fence ("hello```") does not round-trip to its trimmed form. -/
theorem claim_C4_counterexample :
    (stripFences (stripFences "```html```html foo```".data) ≠
        stripFences "```html```html foo```".data) ∧
    (containsSub htmlFence "hello```".data = false ∧
      stripFences "hello```".data ≠ pyStrip "hello```".data) := by
  decide

/-- C4 (amended): fence-stripping is idempotent on every input whose output
neither starts with a ```html fence nor ends with a ``` fence; an input
whose trimmed form neither starts with ```html nor ends with ``` is returned
trimmed but otherwise unchanged; and an input of the exact form
```html&lt;inner&gt;``` yields the inner content trimmed.  (Unrestricted
idempotence, and the round-trip for fence-free inputs that still end in a
bare ``` fence, fail — see the counterexample.) -/
theorem claim_C4_amended :
    (∀ s : List Char, htmlFence.isPrefixOf (stripFences s) = false →
        closeFence.isSuffixOf (stripFences s) = false →
        stripFences (stripFences s) = stripFences s) ∧
    (∀ s : List Char, htmlFence.isPrefixOf (pyStrip s) = false →
        closeFence.isSuffixOf (pyStrip s) = false →
        stripFences s = pyStrip s) ∧
    (∀ inner : List Char,
        stripFences (htmlFence ++ inner ++ closeFence) = pyStrip inner) := by
  have key : ∀ s : List Char, htmlFence.isPrefixOf (pyStrip s) = false →
      closeFence.isSuffixOf (pyStrip s) = false → stripFences s = pyStrip s := by
    intro s h1 h2
    unfold stripFences stripOpenFence stripCloseFence
    rw [h1]
    simp only [Bool.false_eq_true, if_false, h2]
  refine ⟨?_, key, ?_⟩
  · intro s h1 h2
    have hfix := stripFences_strip_fixed s
    have := key (stripFences s) (by rw [hfix]; exact h1) (by rw [hfix]; exact h2)
    rw [this, hfix]
  · intro inner
    unfold stripFences stripOpenFence stripCloseFence
    have hwrap := pyStrip_wrap inner
    rw [hwrap]
    have hpre : htmlFence.isPrefixOf (htmlFence ++ inner ++ closeFence) = true := by
      simp only [List.append_assoc]
      simp
    rw [hpre]
    simp only [if_true]
    have hdrop : (htmlFence ++ inner ++ closeFence).drop 7 = inner ++ closeFence := by
      rw [List.append_assoc]
      exact List.drop_left' (by decide)
    rw [hdrop]
    have hstrip1 : pyStrip (inner ++ closeFence) = pyLstrip inner ++ closeFence :=
      pyStrip_append_closeFence inner
    rw [hstrip1]
    have hsuf : closeFence.isSuffixOf (pyLstrip inner ++ closeFence) = true := by
      simp
    rw [hsuf]
    simp only [if_true]
    have htake : (pyLstrip inner ++ closeFence).take
        ((pyLstrip inner ++ closeFence).length - 3) = pyLstrip inner := by
      rw [List.length_append, show closeFence.length = 3 from rfl,
        Nat.add_sub_cancel]
      exact List.take_left _ _
    rw [htake]
    exact pyStrip_lstrip inner

/-- C4 witness: the amended theorem applied at concrete inputs. -/
theorem claim_C4_witness :
    stripFences "  plain text  ".data = pyStrip "  plain text  ".data ∧
    stripFences (htmlFence ++ " <p>x</p> ".data ++ closeFence) =
      pyStrip " <p>x</p> ".data :=
  ⟨claim_C4_amended.2.1 _ (by decide) (by decide), claim_C4_amended.2.2 _⟩

/-! ### Claims C2, C3, C10: the generation client and the resume parser -/

/-- C3: for the CLONE (`generate_html_with_llm`) and BUILD_PORTFOLIO
(`generate_portfolio_from_context`) generation calls, three consecutive
resource-exhaustion outcomes give exactly 3 total attempts with sleeps of
5 s after the first failure and 10 s after the second, ending in the
terminal ResourceExhausted error carried with HTTP status 429; any
non-resource-exhaustion provider error is terminal on the first attempt,
with zero retries and zero sleeps. -/
theorem claim_C3_retry_policy :
    (∀ rest, generateHtmlRun (.resourceExhausted :: .resourceExhausted ::
        .resourceExhausted :: rest) = ⟨.error .resourceExhausted, [5, 10], 3⟩) ∧
    (∀ rest, generatePortfolioRun (.resourceExhausted :: .resourceExhausted ::
        .resourceExhausted :: rest) = ⟨.error .resourceExhausted, [5, 10], 3⟩) ∧
    (∀ rest, generateHtmlRun (.otherError :: rest) =
        ⟨.error .serverError, [], 1⟩) ∧
    (∀ rest, generateHtmlRun (.invalidResponse :: rest) =
        ⟨.error .invalidResponse, [], 1⟩) ∧
    (∀ rest, generatePortfolioRun (.otherError :: rest) =
        ⟨.error .serverError, [], 1⟩) ∧
    (∀ rest, generatePortfolioRun (.invalidResponse :: rest) =
        ⟨.error .invalidResponse, [], 1⟩) ∧
    httpStatus .resourceExhausted = 429 ∧
    httpStatus .serverError = 500 :=
  ⟨fun _ => rfl, fun _ => rfl, fun _ => rfl, fun _ => rfl, fun _ => rfl,
    fun _ => rfl, rfl, rfl⟩

/-- C2 counterexample: `parse_resume_to_json` does not retry resource
exhaustion.  On a script whose first outcome is ResourceExhausted and whose
second outcome is a perfectly parseable response, the run is terminal after
1 attempt with no sleeps and surfaces a 500 server error — whereas the
claimed 3-attempt policy would have reached the second outcome.  The
retrying HTML client on the same script does make a second attempt. -/
theorem claim_C2_counterexample :
    parseResumeRun [.resourceExhausted,
        .ok "\x7b\"name\": \"John Doe\", \"experience\": []\x7d".data] =
      ⟨.error .serverError, [], 1⟩ ∧
    (jsonLoads "\x7b\"name\": \"John Doe\", \"experience\": []\x7d".data).isSome
      = true ∧
    (generateHtmlRun [.resourceExhausted,
        .ok "\x7b\"name\": \"John Doe\", \"experience\": []\x7d".data]).attempts
      = 2 :=
  ⟨rfl, rfl, rfl⟩

/-- C2 (amended): the resume-parse task (`parse_resume_to_json`) makes
exactly one provider attempt with no backoff sleeps; a resource-exhaustion
error on that attempt is immediately terminal and is surfaced as an HTTP
500 server error.  The 3-attempt/5s-10s backoff policy applies only to the
CLONE and BUILD_PORTFOLIO generation calls. -/
theorem claim_C2_amended :
    (∀ (o : LlmOutcome) (rest : List LlmOutcome),
        (parseResumeRun (o :: rest)).attempts = 1 ∧
        (parseResumeRun (o :: rest)).sleeps = []) ∧
    (∀ rest, (parseResumeRun (.resourceExhausted :: rest)).result =
        .error .serverError) ∧
    (∀ rest, generateHtmlRun (.resourceExhausted :: .resourceExhausted ::
        .resourceExhausted :: rest) = ⟨.error .resourceExhausted, [5, 10], 3⟩) ∧
    httpStatus .serverError = 500 := by
  refine ⟨fun o rest => ?_, fun _ => rfl, fun _ => rfl, rfl⟩
  cases o with
  | ok raw =>
    simp only [parseResumeRun]
    cases jsonLoads raw <;> exact ⟨rfl, rfl⟩
  | invalidResponse => exact ⟨rfl, rfl⟩
  | resourceExhausted => exact ⟨rfl, rfl⟩
  | otherError => exact ⟨rfl, rfl⟩

/-- C10: the resume-parse task feeds the provider's raw response text
directly to the JSON parser — its run result is exactly `json.loads` of the
raw text, with a parse failure surfaced as a terminal 500 server error after
a single attempt — and a response wrapped in markdown ```json fences fails
JSON parsing, while the HTML-producing tasks do strip a leading ```html
fence and a trailing ``` fence from their output. -/
theorem claim_C10_raw_json_parse :
    (∀ raw rest, jsonLoads raw = none →
        parseResumeRun (.ok raw :: rest) = ⟨.error .serverError, [], 1⟩) ∧
    (∀ raw rest j, jsonLoads raw = some j →
        parseResumeRun (.ok raw :: rest) = ⟨.ok j, [], 1⟩) ∧
    jsonLoads "```json\n\x7b\"name\": \"John Doe\"\x7d\n```".data = none ∧
    jsonLoads "\x7b\"name\": \"John Doe\"\x7d".data =
      some (.obj [("name".data, .str "John Doe".data)]) ∧
    stripFences "```html\n<p>x</p>\n```".data = "<p>x</p>".data := by
  refine ⟨?_, ?_, rfl, rfl, by decide⟩
  · intro raw rest h
    simp [parseResumeRun, h]
  · intro raw rest j h
    simp [parseResumeRun, h]

/-- C10 witness: the theorem applied at concrete raw responses. -/
theorem claim_C10_witness :
    parseResumeRun [.ok "not json".data] = ⟨.error .serverError, [], 1⟩ ∧
    parseResumeRun [.ok "\x7b\x7d".data] = ⟨.ok (.obj []), [], 1⟩ :=
  ⟨claim_C10_raw_json_parse.1 _ [] rfl,
    claim_C10_raw_json_parse.2.1 _ [] (Json.obj []) rfl⟩

/-! ### Claims C1, C5, C6, C7, C9: validation gate and flows -/

/-- C1 counterexample: in the build-portfolio flow a scraped context whose
`simplified_html` contains the marker "empty" (but not "failed") passes the
first validation check and the whole gate, and the flow reaches the
resume-parse step, the portfolio generation step and the storage write. -/
theorem claim_C1_counterexample :
    containsSub emptyMarker (pyLower "Your cart is empty today".data) = true ∧
    validateBuild "Your cart is empty today".data = none ∧
    buildFlow "Your cart is empty today".data
        (some ⟨.str "John Doe".data, []⟩)
        (some "<!DOCTYPE html><p>ok</p>".data) =
      (.ok "<!DOCTYPE html><p>ok</p>".data,
        [.parseResume, .generatePortfolio,
          .s3Write "<!DOCTYPE html><p>ok</p>".data]) := by
  decide

/-- C1 (amended): in the build-portfolio flow the first validation check
rejects with ScrapeFailed exactly when `simplified_html` is empty or
contains "failed" (case-insensitively); the "empty" marker is additionally
rejected only by the clone flow's validation check; and every context that
passes the whole build gate reaches the resume-parse step. -/
theorem claim_C1_amended :
    (∀ h : List Char, buildFirstCheck h = true ↔
        (h = [] ∨ containsSub failedMarker (pyLower h) = true)) ∧
    (∀ h : List Char, cloneCheck h = true ↔
        (h = [] ∨ containsSub failedMarker (pyLower h) = true ∨
          containsSub emptyMarker (pyLower h) = true)) ∧
    (∀ (h : List Char) (po : Option ResumeProfile) (go : Option (List Char)),
        validateBuild h = none → BuildEv.parseResume ∈ (buildFlow h po go).2) := by
  refine ⟨?_, ?_, ?_⟩
  · intro h
    simp [buildFirstCheck, List.isEmpty_iff]
  · intro h
    simp [cloneCheck, List.isEmpty_iff, or_assoc]
  · intro h po go hv
    rcases po with _ | p
    · simp [buildFlow, hv]
    · by_cases hr : resumeGateRejects p
      · simp [buildFlow, hv, hr]
      · rcases go with _ | out
        · simp [buildFlow, hv, hr]
        · by_cases hs : (pyStrip out).isEmpty <;> simp [buildFlow, hv, hr, hs]

/-- C1 witness: the amended theorem applied to a benign scraped context. -/
theorem claim_C1_witness :
    BuildEv.parseResume ∈ (buildFlow "<html><body>hello world</body></html>".data
        (some ⟨.str "John Doe".data, []⟩) (some "x".data)).2 :=
  claim_C1_amended.2.2 _ _ _ (by decide)

/-- C5 counterexample: a scraped context containing the crash marker and
also the word "failed" is rejected by the earlier ScrapeFailed check, not
with ClientSideCrash — so the claim's "rejects with ClientSideCrash even if
other content is present" fails as stated (the flow does still abort at
validation with no model call and no storage write). -/
theorem claim_C5_counterexample :
    containsSub crashMarker (crashMarker ++ " load failed".data) = true ∧
    buildFlow (crashMarker ++ " load failed".data)
        (some ⟨.str "John Doe".data, []⟩) (some "x".data) =
      (.error .scrapeFailed, []) ∧
    FlowErr.scrapeFailed ≠ FlowErr.clientSideCrash := by
  decide

/-- C5 (amended): in the build-portfolio flow, every scraped context whose
`simplified_html` contains the crash marker aborts at the validation stage —
no model call and no storage write occur — and the error is ClientSideCrash
provided the html does not also contain "failed" (case-insensitively), in
which case the earlier ScrapeFailed check reports first. -/
theorem claim_C5_amended :
    ∀ (h : List Char) (po : Option ResumeProfile) (go : Option (List Char)),
      containsSub crashMarker h = true →
      ((buildFlow h po go).2 = [] ∧ (∃ e, (buildFlow h po go).1 = .error e)) ∧
      (containsSub failedMarker (pyLower h) = false →
        buildFlow h po go = (.error .clientSideCrash, [])) := by
  intro h po go hc
  have hne : h.isEmpty = false := by
    rcases h with _ | _
    · exact absurd hc (by decide)
    · rfl
  by_cases hf : containsSub failedMarker (pyLower h) = true
  · have hv : validateBuild h = some .scrapeFailed := by
      simp [validateBuild, buildFirstCheck, hne, hf]
    refine ⟨⟨by simp [buildFlow, hv], ⟨.scrapeFailed, by simp [buildFlow, hv]⟩⟩,
      fun hf' => ?_⟩
    rw [hf'] at hf
    exact absurd hf (by simp)
  · have hf' : containsSub failedMarker (pyLower h) = false := by
      simpa using hf
    have hv : validateBuild h = some .clientSideCrash := by
      simp [validateBuild, buildFirstCheck, crashCheck, hne, hf', hc]
    exact ⟨⟨by simp [buildFlow, hv], ⟨.clientSideCrash, by simp [buildFlow, hv]⟩⟩,
      fun _ => by simp [buildFlow, hv]⟩

/-- C5 witness: the amended theorem applied to a context that is exactly the
crash marker. -/
theorem claim_C5_witness :
    buildFlow crashMarker (some ⟨.str "John Doe".data, []⟩) (some "x".data) =
      (.error .clientSideCrash, []) :=
  (claim_C5_amended crashMarker _ _ (by decide)).2 (by decide)

/-- C6: the empty-SPA-shell check fires exactly when `simplified_html` is
under 100 characters and contains the literal `<div id="root"></div>`; a
context that is exactly that string is rejected by the build gate as
EmptyShell; and any context of length at least 100 passes the shell check. -/
theorem claim_C6_empty_shell :
    (∀ h : List Char, shellCheck h = true ↔
        (h.length < 100 ∧ containsSub rootDivMarker h = true)) ∧
    validateBuild rootDivMarker = some .emptyShell ∧
    (∀ h : List Char, 100 ≤ h.length → shellCheck h = false) := by
  refine ⟨?_, by decide, ?_⟩
  · intro h
    constructor
    · intro hh
      simp [shellCheck] at hh
      exact ⟨hh.1.2, hh.2⟩
    · rintro ⟨h1, h2⟩
      have hne : h.isEmpty = false := by
        rcases h with _ | _
        · exact absurd h2 (by decide)
        · rfl
      simp [shellCheck, hne, h1, h2]
  · intro h h100
    have hlt : decide (h.length < 100) = false := by
      simp
      omega
    simp [shellCheck, hlt]

/-- C6 witness: the theorem applied to a 100-character context. -/
theorem claim_C6_witness :
    shellCheck (List.replicate 100 'a') = false :=
  claim_C6_empty_shell.2.2 _ (by simp)

/-- C7: in the build-portfolio flow a parsed profile with neither a (truthy)
name nor any experience entries is rejected as unusable right after the
resume-parse step — before the portfolio-build generation is invoked — while
any profile with a name present proceeds past this gate to the generation
step. -/
theorem claim_C7_resume_gate :
    (∀ (h : List Char) (go : Option (List Char)) (p : ResumeProfile),
        validateBuild h = none → truthyName p.name = false →
        p.experience = [] →
        buildFlow h (some p) go = (.error .resumeUnusable, [.parseResume])) ∧
    (∀ (h : List Char) (go : Option (List Char)) (p : ResumeProfile),
        validateBuild h = none → truthyName p.name = true →
        BuildEv.generatePortfolio ∈ (buildFlow h (some p) go).2) := by
  constructor
  · intro h go p hv hn he
    have hr : resumeGateRejects p = true := by
      simp [resumeGateRejects, hn, he]
    simp [buildFlow, hv, hr]
  · intro h go p hv hn
    have hr : resumeGateRejects p = false := by
      simp [resumeGateRejects, hn]
    rcases go with _ | out
    · simp [buildFlow, hv, hr]
    · by_cases hs : (pyStrip out).isEmpty <;> simp [buildFlow, hv, hr, hs]

/-- C7 witness: the theorem applied to a nameless profile without
experience, and to a named profile with an empty experience array. -/
theorem claim_C7_witness :
    buildFlow "<html><body>hello world</body></html>".data
        (some ⟨.absent, []⟩) (some "x".data) =
      (.error .resumeUnusable, [.parseResume]) ∧
    BuildEv.generatePortfolio ∈
      (buildFlow "<html><body>hello world</body></html>".data
        (some ⟨.str "John Doe".data, []⟩) (some "x".data)).2 :=
  ⟨claim_C7_resume_gate.1 _ _ _ (by decide) (by decide) rfl,
    claim_C7_resume_gate.2 _ _ _ (by decide) (by decide)⟩

/-- C9: in the clone flow, when the generation step returns a string that is
empty after trimming, the flow still succeeds: the (empty) content is
written to the output file and the response carries the deterministic file
path and the public view link containing the generated filename. -/
theorem claim_C9_empty_clone_persisted :
    ∀ dir staticPfx baseUrl url html g ts : List Char,
      cloneCheck html = false → pyStrip g = [] →
      cloneFlow dir staticPfx baseUrl url html (some g) ts =
        (.ok ⟨joinPath dir (cloneFilename url ts),
            baseUrl ++ staticPfx ++ '/' :: cloneFilename url ts⟩,
          [.generateClone, .fileWrite g]) := by
  intro dir staticPfx baseUrl url html g ts hv _
  simp [cloneFlow, hv]

/-! ### Claim C8: the clone filename -/

/-- C8 counterexample: for the URL "http:///x" Python's
`url.split('//')[-1]` is "/x" (the split consumes non-overlapping `//`
occurrences left to right), so the code produces the empty host and the
filename "clone__20250101_000000.html", while the portion after the *last*
occurrence of `//` is "x", which would give
"clone_x_20250101_000000.html". -/
theorem claim_C8_counterexample :
    cloneFilename "http:///x".data "20250101_000000".data =
      "clone__20250101_000000.html".data ∧
    specCloneFilename "http:///x".data "20250101_000000".data =
      "clone_x_20250101_000000.html".data ∧
    cloneFilename "http:///x".data "20250101_000000".data ≠
      specCloneFilename "http:///x".data "20250101_000000".data := by
  decide

/-- C8 (amended): the saved file's name is deterministically
clone_{sanitized_host}_{timestamp}.html where the host is the last piece of
splitting the URL on non-overlapping occurrences of `//` (scanned left to
right) taken up to the first subsequent `/`; for every URL containing no run
of three or more consecutive slashes this host equals the portion after the
last `//` and before the first subsequent `/`.  Sanitization replaces every
`.` and every `:` in the host with `_` and leaves every other character —
in particular letter case — unchanged. -/
theorem claim_C8_amended :
    (∀ l : List Char, sanitizeHost l =
        l.map fun c => if c = '.' ∨ c = ':' then '_' else c) ∧
    (∀ c : Char, c ≠ '.' → c ≠ ':' → sanitizeHost [c] = [c]) ∧
    (∀ url : List Char, containsSub "///".data url = false →
        hostOf url = specHostOf url) ∧
    (∀ url ts : List Char, containsSub "///".data url = false →
        cloneFilename url ts = specCloneFilename url ts) := by
  have hrep : ∀ (old new : Char) (l : List Char),
      replaceChar old new l = l.map fun c => if c = old then new else c := by
    intro old new l
    induction l with
    | nil => rfl
    | cons c t ih => simp [replaceChar, ih]
  have hmap : ∀ l : List Char, sanitizeHost l =
      l.map fun c => if c = '.' ∨ c = ':' then '_' else c := by
    intro l
    unfold sanitizeHost
    rw [hrep, hrep, List.map_map]
    apply List.map_congr_left
    intro a _
    by_cases h1 : a = '.'
    · subst h1
      simp
    · by_cases h2 : a = ':'
      · subst h2
        simp
      · simp [h1, h2]
  have hhost : ∀ url : List Char, containsSub "///".data url = false →
      hostOf url = specHostOf url := by
    intro url h
    unfold hostOf specHostOf
    rw [splitDS_last_eq_afterLast url h]
  refine ⟨hmap, ?_, hhost, ?_⟩
  · intro c h1 h2
    rw [hmap]
    simp [h1, h2]
  · intro url ts h
    unfold cloneFilename specCloneFilename
    rw [hhost url h]

/-- C8 witness: the amended theorem applied to a gallery URL and to an
upper-case character. -/
theorem claim_C8_witness :
    hostOf "https://www.uber.com/in/en/".data =
      specHostOf "https://www.uber.com/in/en/".data ∧
    sanitizeHost ['A'] = ['A'] ∧
    cloneFilename "https://www.uber.com/in/en/".data "20250605_175014".data =
      specCloneFilename "https://www.uber.com/in/en/".data "20250605_175014".data :=
  ⟨claim_C8_amended.2.2.1 _ (by decide),
    claim_C8_amended.2.1 'A' (by decide) (by decide),
    claim_C8_amended.2.2.2 _ _ (by decide)⟩

/-- C9 witness: the theorem applied to a whitespace-only generation result. -/
theorem claim_C9_witness :
    cloneFlow "generated_html".data "/static/clones".data
        "http://localhost:8000".data "https://a.com/x".data
        "<html>ok</html>".data (some "   ".data) "20250101_000000".data =
      (.ok ⟨joinPath "generated_html".data
            (cloneFilename "https://a.com/x".data "20250101_000000".data),
          "http://localhost:8000".data ++ "/static/clones".data ++ '/' ::
            cloneFilename "https://a.com/x".data "20250101_000000".data⟩,
        [.generateClone, .fileWrite "   ".data]) :=
  claim_C9_empty_clone_persisted _ _ _ _ _ _ _ (by decide) (by decide)
